import Mathlib

/-!
Verification development for the TurbuStat-in-LocalClouds repository.

The repository consists of two Jupyter notebooks:

* a preprocessing notebook ("Stage 1") that homogenizes COMPLETE
  (Ophiuchus, Perseus) and CARMA-NRO (Orion) CO data and writes FITS
  products to disk, and
* an analysis/overview notebook ("Stage 2") that loads data, runs
  turbulence statistics and distance metrics.

Two shallow embeddings are developed below:

1. an executable model of the region-trimming step
   (`scipy.ndimage.label` with the default 4-connected structuring
   element followed by `scipy.ndimage.find_objects`, of which the code
   takes element 0), together with the shape semantics of slicing a
   spectral cube with `(slice(None),) + this_slice`;
2. a statement-level trace of both notebooks: each code statement is
   transcribed into a small statement language and interpreted into a
   final state recording the environment of bound data objects, the
   sequence of FITS writes (with their `overwrite` flags and the full
   history of library operations applied to the written object), and
   the in-place attribute mutations performed on loaded objects.
-/

namespace LocalClouds

/-! ## Region trimming: scipy.ndimage.label / find_objects semantics

`nd.label` with the default structuring element uses 4-connectivity and
numbers the connected components 1..n in order of first occurrence in a
row-major (raster) scan; `nd.find_objects` returns the bounding-box
slice for each label in label order.  The notebook computes
`nd.find_objects(nd.label(finite_mask)[0])` and takes element `[0]`,
i.e. the bounding box of the component containing the first finite
pixel in raster order. -/

/-- A pixel position `(row, column)`. -/
abbrev Cell := Nat × Nat

/-- The finite-value mask of a 2D map: `true` marks a finite pixel. -/
abbrev Grid := List (List Bool)

/-- 4-connectivity (the default structuring element of `nd.label` in 2D). -/
def adjacent (a b : Cell) : Bool :=
  (a.1 == b.1 && (a.2 + 1 == b.2 || b.2 + 1 == a.2)) ||
  (a.2 == b.2 && (a.1 + 1 == b.1 || b.1 + 1 == a.1))

/-- The `true` cells of one row, in column order. -/
def rowTrueCells (r : Nat) (row : List Bool) : List Cell :=
  (List.range row.length).filterMap fun c =>
    if row.getD c false then some (r, c) else none

/-- All `true` cells of the mask, in row-major (raster) order. -/
def trueCells (g : Grid) : List Cell :=
  (List.range g.length).flatMap fun r => rowTrueCells r (g.getD r [])

/-- One step of flood filling: add every mask cell adjacent to the
current component. -/
def expandOnce (mask comp : List Cell) : List Cell :=
  comp ++ mask.filter fun q => !comp.contains q && comp.any fun d => adjacent q d

/-- Iterated flood filling. -/
def expandN : Nat → List Cell → List Cell → List Cell
  | 0, _, comp => comp
  | n + 1, mask, comp => expandN n mask (expandOnce mask comp)

/-- The 4-connected component of `seed` inside `mask`.  `mask.length`
expansion rounds suffice because each round before stabilization adds at
least one cell. -/
def component (mask : List Cell) (seed : Cell) : List Cell :=
  expandN mask.length mask [seed]

/-- Remove the cells of `comp` from `mask`. -/
def removeComp (mask comp : List Cell) : List Cell :=
  mask.filter fun q => !comp.contains q

/-- Peel off connected components, seeding each from the earliest
remaining cell in raster order; this reproduces the label order of
`nd.label` (labels are assigned in order of first occurrence). -/
def componentsFrom : Nat → List Cell → List (List Cell)
  | 0, _ => []
  | _ + 1, [] => []
  | n + 1, c :: rest =>
    component (c :: rest) c :: componentsFrom n (removeComp (c :: rest) (component (c :: rest) c))

/-- The connected components of the mask in label order. -/
def componentsInOrder (mask : List Cell) : List (List Cell) :=
  componentsFrom mask.length mask

/-- A 2D slice pair `(slice(r0, r1), slice(c0, c1))` as returned by
`nd.find_objects`. -/
structure Slice2 where
  r0 : Nat
  r1 : Nat
  c0 : Nat
  c1 : Nat
deriving DecidableEq, Repr

/-- The bounding-box slice of a nonempty set of cells. -/
def bbox : List Cell → Slice2
  | [] => ⟨0, 0, 0, 0⟩
  | c :: rest =>
    ⟨(rest.map Prod.fst).foldl min c.1,
     (rest.map Prod.fst).foldl max c.1 + 1,
     (rest.map Prod.snd).foldl min c.2,
     (rest.map Prod.snd).foldl max c.2 + 1⟩

/-- `nd.find_objects(nd.label(finite_mask)[0])`: the bounding boxes of
the connected components of the finite mask, in label order. -/
def find_objects_of_label (g : Grid) : List Slice2 :=
  (componentsInOrder (trueCells g)).map bbox

/-- `this_slice = list_of_slices[0]` as computed by the notebook: the
first element of the `find_objects` list (`none` when the mask is
empty, where the Python code would raise an IndexError). -/
def this_slice_of (g : Grid) : Option Slice2 :=
  (find_objects_of_label g).head?

/-- Modelled from the claim's words, for comparison with `this_slice_of`:
the bounding box of the largest contiguous labeled region (the first
one among components of maximal size). -/
def largest_component_slice (g : Grid) : Option Slice2 :=
  (componentsInOrder (trueCells g)).foldl
    (fun best comp =>
      match best with
      | none => some comp
      | some b => if comp.length > b.length then some comp else best)
    none
  |>.map bbox

/-! ## Shape semantics of cube slicing

A spectral cube's shape is `(n_velocity, n_y, n_x)`; the notebook
slices a cube with `(slice(None),) + this_slice`, which keeps axis 0
whole and applies the two bounding-box slices to the spatial axes.
Python slice semantics clamp the bounds to the axis length. -/

/-- The shape of a spectral cube: velocity, y and x axis lengths. -/
structure CubeShape where
  nv : Nat
  ny : Nat
  nx : Nat
deriving DecidableEq, Repr

/-- The length of the axis selected by `slice(lo, hi)` on an axis of
length `n` (Python semantics, nonnegative bounds). -/
def sliceLen (n lo hi : Nat) : Nat :=
  min hi n - min lo n

/-- The shape of `cube[(slice(None),) + this_slice]`. -/
def sliceCubeShape (sh : CubeShape) (s : Slice2) : CubeShape :=
  ⟨sh.nv, sliceLen sh.ny s.r0 s.r1, sliceLen sh.nx s.c0 s.c1⟩

/-! ### Lemmas about the labeling model -/

theorem mem_rowTrueCells {r : Nat} {row : List Bool} {p : Cell}
    (h : p ∈ rowTrueCells r row) : p.1 = r ∧ p.2 < row.length := by
  unfold rowTrueCells at h
  rcases List.mem_filterMap.mp h with ⟨c, hc, hfc⟩
  by_cases hb : row.getD c false = true
  · simp only [if_pos hb] at hfc
    injection hfc with h2
    subst h2
    exact ⟨rfl, List.mem_range.mp hc⟩
  · simp only [if_neg hb] at hfc
    exact Option.noConfusion hfc

theorem mem_trueCells {g : Grid} {p : Cell} (h : p ∈ trueCells g) :
    p.1 < g.length ∧ p.2 < (g.getD p.1 []).length := by
  unfold trueCells at h
  rcases List.mem_flatMap.mp h with ⟨r, hr, hp⟩
  rcases mem_rowTrueCells hp with ⟨h1, h2⟩
  constructor
  · rw [h1]; exact List.mem_range.mp hr
  · rw [h1]; exact h2

theorem getD_mem {α : Type} : ∀ (l : List α) (n : Nat) (d : α),
    n < l.length → l.getD n d ∈ l := by
  intro l
  induction l with
  | nil => intro n d h; simp at h
  | cons x xs ih =>
    intro n d h
    cases n with
    | zero => exact List.mem_cons_self x xs
    | succ m => exact List.mem_cons_of_mem x (ih m d (Nat.lt_of_succ_lt_succ h))

theorem mem_expandOnce_of_mem {mask comp : List Cell} {p : Cell}
    (hp : p ∈ comp) : p ∈ expandOnce mask comp := by
  unfold expandOnce
  exact List.mem_append_left _ hp

theorem mem_expandOnce_sub {mask comp : List Cell} {p : Cell}
    (hp : p ∈ expandOnce mask comp) : p ∈ comp ∨ p ∈ mask := by
  unfold expandOnce at hp
  rcases List.mem_append.mp hp with h | h
  · exact Or.inl h
  · exact Or.inr (List.mem_filter.mp h).1

theorem mem_expandN_of_mem :
    ∀ (n : Nat) (mask comp : List Cell) (p : Cell),
      p ∈ comp → p ∈ expandN n mask comp := by
  intro n
  induction n with
  | zero => intro mask comp p hp; exact hp
  | succ m ih =>
    intro mask comp p hp
    exact ih mask (expandOnce mask comp) p (mem_expandOnce_of_mem hp)

theorem expandN_sub :
    ∀ (n : Nat) (mask comp : List Cell) (p : Cell),
      p ∈ expandN n mask comp → p ∈ comp ∨ p ∈ mask := by
  intro n
  induction n with
  | zero => intro mask comp p hp; exact Or.inl hp
  | succ m ih =>
    intro mask comp p hp
    rcases ih mask (expandOnce mask comp) p hp with h | h
    · exact mem_expandOnce_sub h
    · exact Or.inr h

theorem self_mem_component (mask : List Cell) (seed : Cell) :
    seed ∈ component mask seed :=
  mem_expandN_of_mem mask.length mask [seed] seed (List.mem_cons_self seed [])

theorem component_sub {mask : List Cell} {seed p : Cell}
    (hseed : seed ∈ mask) (hp : p ∈ component mask seed) : p ∈ mask := by
  rcases expandN_sub mask.length mask [seed] p hp with h | h
  · rw [List.mem_singleton] at h; subst h; exact hseed
  · exact h

theorem foldl_min_le : ∀ (l : List Nat) (a : Nat), l.foldl min a ≤ a := by
  intro l
  induction l with
  | nil => intro a; exact Nat.le_refl a
  | cons x xs ih =>
    intro a
    exact Nat.le_trans (ih (min a x)) (Nat.min_le_left a x)

theorem le_foldl_max : ∀ (l : List Nat) (a : Nat), a ≤ l.foldl max a := by
  intro l
  induction l with
  | nil => intro a; exact Nat.le_refl a
  | cons x xs ih =>
    intro a
    exact Nat.le_trans (Nat.le_max_left a x) (ih (max a x))

theorem foldl_max_lt {n : Nat} :
    ∀ (l : List Nat) (a : Nat), a < n → (∀ x ∈ l, x < n) → l.foldl max a < n := by
  intro l
  induction l with
  | nil => intro a ha _; exact ha
  | cons x xs ih =>
    intro a ha hl
    exact ih (max a x)
      (Nat.max_lt.mpr ⟨ha, hl x (List.mem_cons_self x xs)⟩)
      (fun y hy => hl y (List.mem_cons_of_mem x hy))

theorem bbox_bounds {ny nx : Nat} :
    ∀ (l : List Cell), l ≠ [] → (∀ p ∈ l, p.1 < ny ∧ p.2 < nx) →
      (bbox l).r0 ≤ (bbox l).r1 ∧ (bbox l).r1 ≤ ny ∧
      (bbox l).c0 ≤ (bbox l).c1 ∧ (bbox l).c1 ≤ nx := by
  intro l hne hb
  match l, hne with
  | c :: rest, _ =>
    have hr : ∀ x ∈ rest.map Prod.fst, x < ny := by
      intro x hx
      rcases List.mem_map.mp hx with ⟨p, hp, hpx⟩
      rw [← hpx]
      exact (hb p (List.mem_cons_of_mem c hp)).1
    have hc : ∀ x ∈ rest.map Prod.snd, x < nx := by
      intro x hx
      rcases List.mem_map.mp hx with ⟨p, hp, hpx⟩
      rw [← hpx]
      exact (hb p (List.mem_cons_of_mem c hp)).2
    have h1 : (rest.map Prod.fst).foldl max c.1 < ny :=
      foldl_max_lt _ _ (hb c (List.mem_cons_self c rest)).1 hr
    have h2 : (rest.map Prod.snd).foldl max c.2 < nx :=
      foldl_max_lt _ _ (hb c (List.mem_cons_self c rest)).2 hc
    simp only [bbox]
    refine ⟨?_, Nat.succ_le_of_lt h1, ?_, Nat.succ_le_of_lt h2⟩
    · exact Nat.le_trans (foldl_min_le _ _)
        (Nat.le_trans (le_foldl_max _ _) (Nat.le_succ _))
    · exact Nat.le_trans (foldl_min_le _ _)
        (Nat.le_trans (le_foldl_max _ _) (Nat.le_succ _))

theorem this_slice_of_empty {g : Grid} (h : trueCells g = []) :
    this_slice_of g = none := by
  unfold this_slice_of find_objects_of_label componentsInOrder
  rw [h]
  rfl

theorem this_slice_eq {g : Grid} {a : Cell} {rest : List Cell}
    (h : trueCells g = a :: rest) :
    this_slice_of g = some (bbox (component (a :: rest) a)) := by
  unfold this_slice_of find_objects_of_label componentsInOrder
  rw [h]
  rfl

/-! ## Statement-level trace of the two notebooks

Each code statement of the notebooks is transcribed into a small
statement language and interpreted.  File paths are relative to the
`data_path` directory that both notebooks join onto every path. -/

/-- Library operations applied to one data object. -/
inductive Op where
  /-- Slicing out the 0th plane, `SpectralCube.read(...)[0]`. -/
  | index0
  /-- `np.isfinite(...)`. -/
  | isfinite
  /-- `nd.find_objects(nd.label(...)[0])`. -/
  | findObjectsLabel
  /-- `list_of_slices[0]`. -/
  | indexFirst
  /-- `proj[r0:r1, c0:c1]` on a 2D image. -/
  | sliceRegion (r0 r1 c0 c1 : Nat)
  /-- `cube[:, r0:r1, c0:c1]` on a cube. -/
  | sliceCubeRegion (r0 r1 c0 c1 : Nat)
  /-- `spectral_slab(lo km/s, hi km/s)`. -/
  | spectralSlab (lo hi : Int)
  /-- `downsample_axis(axis=axis, factor=factor)`. -/
  | downsampleAxis (axis factor : Nat)
deriving DecidableEq, Repr

/-- Library operations combining two data objects. -/
inductive Op2 where
  /-- `proj[this_slice]`. -/
  | sliceWith
  /-- `cube[(slice(None),) + this_slice]`. -/
  | sliceCubeWith
  /-- `with_beam(beam)`. -/
  | withBeamOf
  /-- `convolve_to(beam)`. -/
  | convolveToBeam
  /-- `a.reproject(b.header)`. -/
  | reprojectHeader
  /-- `a.reproject(b[0].header)`. -/
  | reprojectPlane0Header
deriving DecidableEq, Repr

/-- Right-hand sides of notebook assignments. -/
inductive Expr where
  /-- Loading a FITS file (`fits.open`, `SpectralCube.read`,
  `Projection.from_hdu(fits.open(...))`). -/
  | load (path : String)
  /-- A previously bound name. -/
  | name (n : String)
  /-- `Beam(major=arcsec * u.arcsec)`. -/
  | beam (arcsec : Nat)
  /-- A unary library operation applied to an expression. -/
  | op (o : Op) (e : Expr)
  /-- A binary library operation applied to two expressions. -/
  | op2 (o : Op2) (e1 e2 : Expr)
  /-- A TurbuStat statistic constructor applied to named arguments. -/
  | stat (sname : String) (args : List String)
deriving DecidableEq, Repr

/-- One notebook statement. -/
inductive Stmt where
  /-- `target = expr`. -/
  | assign (target : String) (e : Expr)
  /-- In-place attribute mutation `obj.attr = ...`
  (`allow_huge_operations = True`). -/
  | setAttr (obj attr : String)
  /-- `obj.write(path, overwrite=...)`; `overwrite` is `false` when the
  keyword is absent (the astropy default). -/
  | write (obj path : String) (overwrite : Bool)
  /-- `assert a.shape == b.shape[1:]`. -/
  | assertShapeEq (a b : String)
  /-- `try: import m except ImportError: print(...)`. -/
  | tryImport (m : String)
  /-- Display-only statements (`quicklook`, `imshow`, `print`, bare
  expressions). -/
  | display (obj : String)
  /-- `obj.run(...)` / `obj.distance_metric(...)` on a statistic. -/
  | runStat (obj : String)
deriving DecidableEq, Repr

/-- The value history of a bound object: the load it came from and the
library operations applied since, outermost last-applied. -/
inductive Value where
  | loaded (path : String)
  | beamV (arcsec : Nat)
  | opApp (o : Op) (v : Value)
  | op2App (o : Op2) (v1 v2 : Value)
  | statApp (sname : String) (args : List String)
  | undef
deriving DecidableEq, Repr

/-- The notebook environment: most recent binding first. -/
abbrev Env := List (String × Value)

def lookupEnv (env : Env) (n : String) : Value :=
  match env.find? (fun p => p.1 == n) with
  | some p => p.2
  | none => .undef

def evalExpr (env : Env) : Expr → Value
  | .load p => .loaded p
  | .name n => lookupEnv env n
  | .beam a => .beamV a
  | .op o e => .opApp o (evalExpr env e)
  | .op2 o e1 e2 => .op2App o (evalExpr env e1) (evalExpr env e2)
  | .stat s args => .statApp s args

/-- A recorded FITS write. -/
structure WriteRec where
  path : String
  overwrite : Bool
  value : Value
deriving DecidableEq, Repr

/-- The interpreter state: bindings, FITS writes in order, and in-place
attribute mutations of data objects in order. -/
structure NBState where
  env : Env
  writes : List WriteRec
  mutations : List (String × String)
deriving DecidableEq, Repr

def stepStmt (st : NBState) : Stmt → NBState
  | .assign t e => { st with env := (t, evalExpr st.env e) :: st.env }
  | .setAttr o a => { st with mutations := st.mutations ++ [(o, a)] }
  | .write o p ow => { st with writes := st.writes ++ [⟨p, ow, lookupEnv st.env o⟩] }
  | .assertShapeEq _ _ => st
  | .tryImport _ => st
  | .display _ => st
  | .runStat _ => st

def runNB (stmts : List Stmt) : NBState :=
  stmts.foldl stepStmt ⟨[], [], []⟩

set_option maxHeartbeats 2000000 in
/-- The preprocessing notebook (Stage 1), statement by statement. -/
def preprocStmts : List Stmt := [
  .assign "ophA_12co_mom0" (.load "orig/Ophiuchus/OphA_12coFCRAO_F_map.fits"),
  .display "ophA_12co_mom0",
  .assign "finite_mask" (.op .isfinite (.name "ophA_12co_mom0")),
  .assign "list_of_slices" (.op .findObjectsLabel (.name "finite_mask")),
  .assign "this_slice" (.op .indexFirst (.name "list_of_slices")),
  .display "this_slice",
  .assign "ophA_12co_mom0_sliced" (.op2 .sliceWith (.name "ophA_12co_mom0") (.name "this_slice")),
  .display "ophA_12co_mom0_sliced",
  .write "ophA_12co_mom0_sliced" "Ophiuchus/OphA_12coFCRAO_F_map_sliced.fits" false,
  .assign "cube_12co" (.load "orig/Ophiuchus/OphA_12coFCRAO_F_vxy.fits"),
  .assertShapeEq "ophA_12co_mom0" "cube_12co",
  .assign "cube_12co_sliced" (.op2 .sliceCubeWith (.name "cube_12co") (.name "this_slice")),
  .assign "ophA_13co_mom0" (.load "orig/Ophiuchus/OphA_13coFCRAO_F_map.fits"),
  .assign "finite_mask" (.op .isfinite (.name "ophA_13co_mom0")),
  .assign "list_of_slices" (.op .findObjectsLabel (.name "finite_mask")),
  .assign "this_slice" (.op .indexFirst (.name "list_of_slices")),
  .assign "ophA_13co_mom0_sliced" (.op2 .sliceWith (.name "ophA_13co_mom0") (.name "this_slice")),
  .display "ophA_13co_mom0_sliced",
  .assign "cube_13co" (.load "orig/Ophiuchus/OphA_13coFCRAO_F_vxy.fits"),
  .assertShapeEq "ophA_13co_mom0" "cube_13co",
  .assign "cube_13co_sliced" (.op2 .sliceCubeWith (.name "cube_13co") (.name "this_slice")),
  .assign "complete_beam" (.beam 46),
  .display "complete_beam",
  .assign "ophA_12co_mom0_sliced_wbeam" (.op2 .withBeamOf (.name "ophA_12co_mom0_sliced") (.name "complete_beam")),
  .write "ophA_12co_mom0_sliced_wbeam" "Ophiuchus/OphA_12coFCRAO_F_map_sliced_withbeam.fits" true,
  .assign "cube_12co_sliced_wbeam" (.op2 .withBeamOf (.name "cube_12co_sliced") (.name "complete_beam")),
  .assign "cube_12co_sliced_wbeam" (.op (.spectralSlab 0 8) (.name "cube_12co_sliced_wbeam")),
  .assign "cube_12co_sliced_wbeam" (.op (.downsampleAxis 0 2) (.name "cube_12co_sliced_wbeam")),
  .write "cube_12co_sliced_wbeam" "Ophiuchus/OphA_12coFCRAO_F_vxy_sliced_withbeam.fits" true,
  .assign "ophA_13co_mom0_sliced_wbeam" (.op2 .withBeamOf (.name "ophA_13co_mom0_sliced") (.name "complete_beam")),
  .write "ophA_13co_mom0_sliced_wbeam" "Ophiuchus/OphA_13coFCRAO_F_map_sliced_withbeam.fits" true,
  .assign "cube_13co_sliced_wbeam" (.op2 .withBeamOf (.name "cube_13co_sliced") (.name "complete_beam")),
  .assign "cube_13co_sliced_wbeam" (.op (.spectralSlab 0 8) (.name "cube_13co_sliced_wbeam")),
  .assign "cube_13co_sliced_wbeam" (.op (.downsampleAxis 0 2) (.name "cube_13co_sliced_wbeam")),
  .write "cube_13co_sliced_wbeam" "Ophiuchus/OphA_13coFCRAO_F_vxy_sliced_withbeam.fits" true,
  .assign "perA_12co_mom0" (.load "orig/Perseus/PerA_12coFCRAO_F_map.fits"),
  .assign "perA_12co_mom0_sliced_wbeam" (.op2 .withBeamOf (.name "perA_12co_mom0") (.name "complete_beam")),
  .write "perA_12co_mom0_sliced_wbeam" "Perseus/PerA_12coFCRAO_F_map_sliced_withbeam.fits" true,
  .assign "perA_cube_12co" (.load "orig/Perseus/perA_12coFCRAO_F_vxy.fits"),
  .setAttr "perA_cube_12co" "allow_huge_operations",
  .assign "perA_cube_12co_sliced_wbeam" (.op2 .withBeamOf (.name "perA_cube_12co") (.name "complete_beam")),
  .assign "perA_cube_12co_sliced_wbeam" (.op (.spectralSlab (-5) 15) (.name "perA_cube_12co_sliced_wbeam")),
  .assign "perA_cube_12co_sliced_wbeam" (.op (.downsampleAxis 0 2) (.name "perA_cube_12co_sliced_wbeam")),
  .write "perA_cube_12co_sliced_wbeam" "Perseus/PerA_12coFCRAO_F_vxy_sliced_withbeam.fits" true,
  .display "perA_12co_mom0",
  .assign "perA_13co_mom0" (.load "orig/Perseus/PerA_13coFCRAO_F_map.fits"),
  .assign "perA_13co_mom0_sliced_wbeam" (.op2 .withBeamOf (.name "perA_13co_mom0") (.name "complete_beam")),
  .write "perA_13co_mom0_sliced_wbeam" "Perseus/PerA_13coFCRAO_F_map_sliced_withbeam.fits" true,
  .assign "perA_cube_13co" (.load "orig/Perseus/perA_13coFCRAO_F_vxy.fits"),
  .setAttr "perA_cube_13co" "allow_huge_operations",
  .assign "perA_cube_13co_sliced_wbeam" (.op2 .withBeamOf (.name "perA_cube_13co") (.name "complete_beam")),
  .assign "perA_cube_13co_sliced_wbeam" (.op (.spectralSlab (-5) 15) (.name "perA_cube_13co_sliced_wbeam")),
  .assign "perA_cube_13co_sliced_wbeam" (.op (.downsampleAxis 0 2) (.name "perA_cube_13co_sliced_wbeam")),
  .write "perA_cube_13co_sliced_wbeam" "Perseus/PerA_13coFCRAO_F_vxy_sliced_withbeam.fits" true,
  .display "perA_13co_mom0",
  .display "complete_beam",
  .assign "orion_mom0_12co" (.op .index0 (.load "orig/Orion/mom0_12co_pix_2_Tmb.fits")),
  .display "orion_mom0_12co",
  .assign "orion_mom0_12co_smoothed" (.op2 .convolveToBeam (.name "orion_mom0_12co") (.name "complete_beam")),
  .display "orion_mom0_12co_smoothed",
  .assign "orion_cube_12co" (.load "orig/Orion/CARMA_NRO_Orion_12co.fits"),
  .setAttr "orion_cube_12co" "allow_huge_operations",
  .assign "orion_cube_12co_smoothed" (.op2 .convolveToBeam (.name "orion_cube_12co") (.name "complete_beam")),
  .assign "orion_cube_12co_downsamp" (.op (.downsampleAxis 2 11) (.op (.downsampleAxis 1 11) (.name "orion_cube_12co_smoothed"))),
  .write "orion_cube_12co_downsamp" "Orion/CARMA_NRO_Orion_12co_smoothed46.fits" true,
  .assign "orion_mom0_12co_smoothed" (.op2 .reprojectPlane0Header (.name "orion_mom0_12co_smoothed") (.name "orion_cube_12co_downsamp")),
  .write "orion_mom0_12co_smoothed" "Orion/mom0_12co_pix_2_Tmb_smoothed46.fits" true,
  .assign "orion_cube_13co" (.load "orig/Orion/CARMA_NRO_Orion_13co.fits"),
  .setAttr "orion_cube_13co" "allow_huge_operations",
  .assign "orion_cube_13co_smoothed" (.op2 .convolveToBeam (.name "orion_cube_13co") (.name "complete_beam")),
  .assign "orion_cube_13co_downsamp" (.op (.downsampleAxis 2 11) (.op (.downsampleAxis 1 11) (.name "orion_cube_13co_smoothed"))),
  .write "orion_cube_13co_downsamp" "Orion/CARMA_NRO_Orion_13co_smoothed46.fits" true,
  .assign "orion_mom0_13co" (.op .index0 (.load "orig/Orion/mom0_13co_pix_2_Tmb.fits")),
  .assign "orion_mom0_13co_smoothed" (.op2 .convolveToBeam (.name "orion_mom0_13co") (.name "complete_beam")),
  .assign "orion_mom0_13co_smoothed" (.op2 .reprojectPlane0Header (.name "orion_mom0_13co_smoothed") (.name "orion_cube_13co_downsamp")),
  .write "orion_mom0_13co_smoothed" "Orion/mom0_13co_pix_2_Tmb_smoothed46.fits" true,
  .assign "orion_cube_c18o" (.load "orig/Orion/CARMA_NRO_Orion_c18o.fits"),
  .setAttr "orion_cube_c18o" "allow_huge_operations",
  .assign "orion_cube_c18o_smoothed" (.op2 .convolveToBeam (.name "orion_cube_c18o") (.name "complete_beam")),
  .assign "orion_cube_c18o_downsamp" (.op (.downsampleAxis 2 11) (.op (.downsampleAxis 1 11) (.name "orion_cube_c18o_smoothed"))),
  .write "orion_cube_c18o_downsamp" "Orion/CARMA_NRO_Orion_c18o_smoothed46.fits" true,
  .assign "orion_mom0_c18o" (.op .index0 (.load "orig/Orion/mom0_c18o_pix_2_Tmb.fits")),
  .assign "orion_mom0_c18o_smoothed" (.op2 .convolveToBeam (.name "orion_mom0_c18o") (.name "complete_beam")),
  .assign "orion_mom0_c18o_smoothed" (.op2 .reprojectPlane0Header (.name "orion_mom0_c18o_smoothed") (.name "orion_cube_c18o_downsamp")),
  .write "orion_mom0_c18o_smoothed" "Orion/mom0_c18o_pix_2_Tmb_smoothed46.fits" true
]

set_option maxHeartbeats 2000000 in
/-- The analysis/overview notebook (Stage 2), statement by statement. -/
def analysisStmts : List Stmt := [
  .tryImport "turbustat",
  .assign "hdu" (.load "Orion/CARMA_NRO_Orion_12co_smoothed46.fits"),
  .assign "cube" (.load "Orion/CARMA_NRO_Orion_12co_smoothed46.fits"),
  .assign "proj" (.load "Orion/mom0_12co_pix_2_Tmb_smoothed46.fits"),
  .display "hdu",
  .display "cube",
  .display "proj",
  .assign "pspec" (.stat "PowerSpectrum" ["proj"]),
  .runStat "pspec",
  .assign "vca" (.stat "VCA" ["cube"]),
  .runStat "vca",
  .assign "vca" (.stat "VCA" ["cube"]),
  .runStat "vca",
  .assign "oph_mom0" (.load "Ophiuchus/OphA_12coFCRAO_F_map_sliced_withbeam.fits"),
  .display "oph_mom0",
  .assign "pspec_dist_orion_oph" (.stat "PSpec_Distance" ["proj", "oph_mom0"]),
  .runStat "pspec_dist_orion_oph",
  .display "pspec_dist_orion_oph",
  .assign "orion_mom0_12co" (.load "Orion/mom0_12co_pix_2_Tmb.fits"),
  .assign "orion_mom0_12co" (.op .index0 (.load "Orion/mom0_12co_pix_2_Tmb.fits")),
  .display "orion_mom0_12co",
  .assign "orion_mom0_12co_region1" (.op (.sliceRegion 3000 3500 1300 1800) (.name "orion_mom0_12co")),
  .display "orion_mom0_12co_region1",
  .assign "orion_mom0_12co_region2" (.op (.sliceRegion 3750 4250 1800 2300) (.name "orion_mom0_12co")),
  .display "orion_mom0_12co_region2",
  .assign "orion_12co_cube" (.load "orig/Orion/CARMA_NRO_Orion_12co.fits"),
  .assign "orion_12co_cube_region1" (.op (.sliceCubeRegion 3000 3500 1300 1800) (.name "orion_12co_cube")),
  .assign "orion_12co_cube_region2" (.op (.sliceCubeRegion 3750 4250 1800 2300) (.name "orion_12co_cube")),
  .assign "scf_dist" (.stat "SCF_Distance" ["orion_12co_cube_region1", "orion_12co_cube_region2"]),
  .runStat "scf_dist",
  .display "scf_dist",
  .assign "orion_mom0_12co_region1" (.op (.sliceRegion 3000 3500 1300 1800) (.name "orion_mom0_12co")),
  .assign "orion_mom0_13co" (.load "Orion/mom0_13co_pix_2_Tmb.fits"),
  .display "orion_mom0_13co",
  .assign "orion_mom0_13co_region1" (.op2 .reprojectHeader (.name "orion_mom0_13co") (.name "orion_mom0_12co_region1")),
  .display "orion_mom0_13co_region1",
  .assign "pdf_dist" (.stat "PDF_Distance" ["orion_mom0_12co_region1", "orion_mom0_13co_region1"]),
  .runStat "pdf_dist",
  .display "pdf_dist",
  .assign "pdf_dist" (.stat "PDF_Distance" ["orion_mom0_12co_region1", "orion_mom0_13co_region1"]),
  .runStat "pdf_dist",
  .display "pdf_dist"
]

/-- The final state of the preprocessing notebook. -/
def preprocState : NBState := runNB preprocStmts

/-- The final state of the analysis notebook. -/
def analysisState : NBState := runNB analysisStmts

/-- The value written to a given path (the first write to it). -/
def writtenValue (st : NBState) (p : String) : Option Value :=
  (st.writes.find? fun w => w.path == p).map WriteRec.value

/-- The file paths written by the preprocessing stage, in order. -/
def stage1WritePaths : List String := preprocState.writes.map WriteRec.path

/-- The FITS paths a statement loads. -/
def exprLoads : Expr → List String
  | .load p => [p]
  | .name _ => []
  | .beam _ => []
  | .op _ e => exprLoads e
  | .op2 _ e1 e2 => exprLoads e1 ++ exprLoads e2
  | .stat _ _ => []

def stmtLoads : Stmt → List String
  | .assign _ e => exprLoads e
  | _ => []

/-- Every FITS path loaded by a notebook, in statement order. -/
def loadsOf (stmts : List Stmt) : List String :=
  stmts.flatMap stmtLoads

/-- The FITS paths loaded by the analysis stage. -/
def stage2LoadPaths : List String := loadsOf analysisStmts

/-! ## Derived views of the traces used by the claims -/

/-- The kinds of preprocessing steps the spec enumerates. -/
inductive StepTag where
  /-- Loading a raw FITS file. -/
  | load
  /-- Trimming empty regions with the labeling-derived bounding box. -/
  | trim
  /-- Removing a redundant length-1 spectral axis by slicing plane 0. -/
  | axisTrim
  /-- Attaching beam metadata with `with_beam`. -/
  | beamAttach
  /-- Restricting the velocity range with `spectral_slab`. -/
  | velRestrict
  /-- Downsampling along the spectral axis (axis 0). -/
  | spectralDown
  /-- Spatial smoothing by beam convolution (`convolve_to`). -/
  | spatialSmooth
  /-- Downsampling along a spatial axis (axis 1 or 2). -/
  | spatialDown
  /-- Reprojection onto another grid. -/
  | reproj
deriving DecidableEq, Repr

def tagsOfOp : Op → List StepTag
  | .index0 => [.axisTrim]
  | .spectralSlab _ _ => [.velRestrict]
  | .downsampleAxis 0 _ => [.spectralDown]
  | .downsampleAxis _ _ => [.spatialDown]
  | _ => []

def tagsOfOp2 : Op2 → List StepTag
  | .sliceWith => [.trim]
  | .sliceCubeWith => [.trim]
  | .withBeamOf => [.beamAttach]
  | .convolveToBeam => [.spatialSmooth]
  | .reprojectHeader => [.reproj]
  | .reprojectPlane0Header => [.reproj]

/-- All preprocessing steps recorded in a value's history. -/
def tagsOfValue : Value → List StepTag
  | .loaded _ => [.load]
  | .beamV _ => []
  | .opApp o v => tagsOfOp o ++ tagsOfValue v
  | .op2App o v1 v2 => tagsOfOp2 o ++ tagsOfValue v1 ++ tagsOfValue v2
  | .statApp _ _ => []
  | .undef => []

/-- Character-list prefix test (kernel-reducible `startsWith`). -/
def charsPrefix : List Char → List Char → Bool
  | [], _ => true
  | _ :: _, [] => false
  | a :: as, b :: bs => decide (a = b) && charsPrefix as bs

/-- Whether `s` starts with `pre`. -/
def pathStartsWith (pre s : String) : Bool :=
  charsPrefix pre.data s.data

/-- The writes of one cloud (its products live under the cloud's
directory). -/
def cloudWrites (st : NBState) (cloud : String) : List WriteRec :=
  st.writes.filter fun w => pathStartsWith cloud w.path

/-- The union of preprocessing steps applied in any value written for a
cloud. -/
def cloudTags (st : NBState) (cloud : String) : List StepTag :=
  ((cloudWrites st cloud).map WriteRec.value).flatMap tagsOfValue

/-- The claim's reading of the spec: a cloud's preprocessing applies the
full sequence of steps (load, trim, beam attach, velocity restriction,
spatial smoothing/downsampling) and writes products. -/
def cloudAppliesFullSequence (cloud : String) : Bool :=
  !(cloudWrites preprocState cloud).isEmpty &&
  (cloudTags preprocState cloud).contains .load &&
  (cloudTags preprocState cloud).contains .trim &&
  (cloudTags preprocState cloud).contains .beamAttach &&
  (cloudTags preprocState cloud).contains .velRestrict &&
  ((cloudTags preprocState cloud).contains .spatialSmooth ||
   (cloudTags preprocState cloud).contains .spatialDown)

/-- Equality of step collections as sets. -/
def sameTagSet (l1 l2 : List StepTag) : Bool :=
  l1.all l2.contains && l2.all l1.contains

/-- The original-resolution Orion inputs the analysis notebook loads for
the sub-region and tracer comparisons (none of them a Stage-1 product). -/
def origResolutionOrionInputs : List String :=
  ["Orion/mom0_12co_pix_2_Tmb.fits",
   "Orion/mom0_13co_pix_2_Tmb.fits",
   "orig/Orion/CARMA_NRO_Orion_12co.fits"]

/-- The statements of a notebook that catch an exception or check a
precondition. -/
def errorHandlingStmts (stmts : List Stmt) : List Stmt :=
  stmts.filter fun s =>
    match s with
    | .tryImport _ => true
    | .assertShapeEq _ _ => true
    | _ => false

/-- The writes that raise on a re-run over existing outputs: the target
already exists (it was written by the run itself) and `overwrite` was
not passed. -/
def rerunFailingWrites : List WriteRec :=
  preprocState.writes.filter fun w =>
    stage1WritePaths.contains w.path && !w.overwrite

/-- The explicit `[r0:r1, c0:c1]` windows occurring in an expression
(from 2D-image slicing or the spatial part of cube slicing). -/
def windowsOfExpr : Expr → List Slice2
  | .op (.sliceRegion a b c d) e => ⟨a, b, c, d⟩ :: windowsOfExpr e
  | .op (.sliceCubeRegion a b c d) e => ⟨a, b, c, d⟩ :: windowsOfExpr e
  | .op _ e => windowsOfExpr e
  | .op2 _ e1 e2 => windowsOfExpr e1 ++ windowsOfExpr e2
  | _ => []

/-- The windows used in assignments to a given name. -/
def windowsBoundTo (stmts : List Stmt) (n : String) : List Slice2 :=
  stmts.flatMap fun s =>
    match s with
    | .assign t e => if t == n then windowsOfExpr e else []
    | _ => []

/-- The pixel shape a window selects. -/
def windowShape (s : Slice2) : Nat × Nat :=
  (s.r1 - s.r0, s.c1 - s.c0)

/-- Whether two windows are disjoint in the pixel grid. -/
def windowsDisjoint (s1 s2 : Slice2) : Bool :=
  decide (s1.r1 ≤ s2.r0) || decide (s2.r1 ≤ s1.r0) ||
  decide (s1.c1 ≤ s2.c0) || decide (s2.c1 ≤ s1.c0)

/-! ## Claim theorems -/

/-- Claim C1, as stated, is false: the preprocessing stage does not
apply the full sequence of steps to every cloud.  Perseus's products are
written without any empty-region trimming step (the notebook states the
Perseus map already has less empty area), so the trim step is absent
from every Perseus write. -/
theorem claim_c1_counterexample :
    (["Ophiuchus/", "Perseus/", "Orion/"].all cloudAppliesFullSequence) = false ∧
    cloudAppliesFullSequence "Perseus/" = false ∧
    (cloudTags preprocState "Perseus/").contains .trim = false ∧
    (cloudWrites preprocState "Perseus/").length = 4 := by decide

/-- Claim C1 (amended): the preprocessing stage applies a cloud-specific
subset of the steps and writes every product: Ophiuchus gets load, trim,
beam attachment, velocity restriction and spectral downsampling (5
writes); Perseus gets the same without trimming (4 writes); Orion gets
load, redundant-axis removal, convolution to the common beam, spatial
downsampling and reprojection, with no trimming, beam attachment or
velocity restriction (6 writes). -/
theorem claim_c1 :
    sameTagSet (cloudTags preprocState "Ophiuchus/")
      [.load, .trim, .beamAttach, .velRestrict, .spectralDown] = true ∧
    sameTagSet (cloudTags preprocState "Perseus/")
      [.load, .beamAttach, .velRestrict, .spectralDown] = true ∧
    sameTagSet (cloudTags preprocState "Orion/")
      [.load, .axisTrim, .spatialSmooth, .spatialDown, .reproj] = true ∧
    (cloudWrites preprocState "Ophiuchus/").length = 5 ∧
    (cloudWrites preprocState "Perseus/").length = 4 ∧
    (cloudWrites preprocState "Orion/").length = 6 ∧
    stage1WritePaths.length = 15 := by decide

/-- Claim C2, as stated, is false: the analysis stage loads the
original-resolution Orion 12CO cube from the `orig` folder, a raw input
that Stage 1 reads but never writes. -/
theorem claim_c2_counterexample :
    stage2LoadPaths.all stage1WritePaths.contains = false ∧
    stage2LoadPaths.contains "orig/Orion/CARMA_NRO_Orion_12co.fits" = true ∧
    stage1WritePaths.contains "orig/Orion/CARMA_NRO_Orion_12co.fits" = false := by decide

/-- Claim C2 (amended): every dataset loaded by the analysis stage is
either a homogenized product written by the preprocessing stage or one
of the three original-resolution Orion inputs deliberately used for the
within-cloud and tracer comparisons, and all three of those raw inputs
are indeed loaded. -/
theorem claim_c2 :
    (stage2LoadPaths.all fun p =>
      stage1WritePaths.contains p || origResolutionOrionInputs.contains p) = true ∧
    origResolutionOrionInputs.all stage2LoadPaths.contains = true := by decide

/-- Claim C4: each of the four COMPLETE cubes is written after exactly
`spectral_slab` with the per-cloud velocity range (0 to 8 km/s for both
Ophiuchus cubes, -5 to 15 km/s for both Perseus cubes) followed by
`downsample_axis(axis=0, factor=2)`, in that order, as the outermost two
operations of the written value. -/
theorem claim_c4 :
    writtenValue preprocState "Ophiuchus/OphA_12coFCRAO_F_vxy_sliced_withbeam.fits" =
      some (.opApp (.downsampleAxis 0 2) (.opApp (.spectralSlab 0 8)
        (.op2App .withBeamOf
          (.op2App .sliceCubeWith (.loaded "orig/Ophiuchus/OphA_12coFCRAO_F_vxy.fits")
            (.opApp .indexFirst (.opApp .findObjectsLabel (.opApp .isfinite
              (.loaded "orig/Ophiuchus/OphA_12coFCRAO_F_map.fits")))))
          (.beamV 46)))) ∧
    writtenValue preprocState "Ophiuchus/OphA_13coFCRAO_F_vxy_sliced_withbeam.fits" =
      some (.opApp (.downsampleAxis 0 2) (.opApp (.spectralSlab 0 8)
        (.op2App .withBeamOf
          (.op2App .sliceCubeWith (.loaded "orig/Ophiuchus/OphA_13coFCRAO_F_vxy.fits")
            (.opApp .indexFirst (.opApp .findObjectsLabel (.opApp .isfinite
              (.loaded "orig/Ophiuchus/OphA_13coFCRAO_F_map.fits")))))
          (.beamV 46)))) ∧
    writtenValue preprocState "Perseus/PerA_12coFCRAO_F_vxy_sliced_withbeam.fits" =
      some (.opApp (.downsampleAxis 0 2) (.opApp (.spectralSlab (-5) 15)
        (.op2App .withBeamOf (.loaded "orig/Perseus/perA_12coFCRAO_F_vxy.fits")
          (.beamV 46)))) ∧
    writtenValue preprocState "Perseus/PerA_13coFCRAO_F_vxy_sliced_withbeam.fits" =
      some (.opApp (.downsampleAxis 0 2) (.opApp (.spectralSlab (-5) 15)
        (.op2App .withBeamOf (.loaded "orig/Perseus/perA_13coFCRAO_F_vxy.fits")
          (.beamV 46)))) := by decide

/-- Claim C5: each Orion cube is written after convolution to the
46-arcsecond COMPLETE beam followed by spatial downsampling by a factor
of 11 along axis 1 and then axis 2, and each Orion moment-0 map is
written after convolution to the same beam followed by reprojection onto
the header of the corresponding downsampled cube's first plane. -/
theorem claim_c5 :
    writtenValue preprocState "Orion/CARMA_NRO_Orion_12co_smoothed46.fits" =
      some (.opApp (.downsampleAxis 2 11) (.opApp (.downsampleAxis 1 11)
        (.op2App .convolveToBeam (.loaded "orig/Orion/CARMA_NRO_Orion_12co.fits")
          (.beamV 46)))) ∧
    writtenValue preprocState "Orion/CARMA_NRO_Orion_13co_smoothed46.fits" =
      some (.opApp (.downsampleAxis 2 11) (.opApp (.downsampleAxis 1 11)
        (.op2App .convolveToBeam (.loaded "orig/Orion/CARMA_NRO_Orion_13co.fits")
          (.beamV 46)))) ∧
    writtenValue preprocState "Orion/CARMA_NRO_Orion_c18o_smoothed46.fits" =
      some (.opApp (.downsampleAxis 2 11) (.opApp (.downsampleAxis 1 11)
        (.op2App .convolveToBeam (.loaded "orig/Orion/CARMA_NRO_Orion_c18o.fits")
          (.beamV 46)))) ∧
    writtenValue preprocState "Orion/mom0_12co_pix_2_Tmb_smoothed46.fits" =
      some (.op2App .reprojectPlane0Header
        (.op2App .convolveToBeam
          (.opApp .index0 (.loaded "orig/Orion/mom0_12co_pix_2_Tmb.fits")) (.beamV 46))
        (.opApp (.downsampleAxis 2 11) (.opApp (.downsampleAxis 1 11)
          (.op2App .convolveToBeam (.loaded "orig/Orion/CARMA_NRO_Orion_12co.fits")
            (.beamV 46))))) ∧
    writtenValue preprocState "Orion/mom0_13co_pix_2_Tmb_smoothed46.fits" =
      some (.op2App .reprojectPlane0Header
        (.op2App .convolveToBeam
          (.opApp .index0 (.loaded "orig/Orion/mom0_13co_pix_2_Tmb.fits")) (.beamV 46))
        (.opApp (.downsampleAxis 2 11) (.opApp (.downsampleAxis 1 11)
          (.op2App .convolveToBeam (.loaded "orig/Orion/CARMA_NRO_Orion_13co.fits")
            (.beamV 46))))) ∧
    writtenValue preprocState "Orion/mom0_c18o_pix_2_Tmb_smoothed46.fits" =
      some (.op2App .reprojectPlane0Header
        (.op2App .convolveToBeam
          (.opApp .index0 (.loaded "orig/Orion/mom0_c18o_pix_2_Tmb.fits")) (.beamV 46))
        (.opApp (.downsampleAxis 2 11) (.opApp (.downsampleAxis 1 11)
          (.op2App .convolveToBeam (.loaded "orig/Orion/CARMA_NRO_Orion_c18o.fits")
            (.beamV 46))))) := by decide

/-- Claim C6, as stated, is false: the preprocessing notebook mutates
loaded cubes in place by setting the `allow_huge_operations` attribute
on five of them. -/
theorem claim_c6_counterexample :
    preprocState.mutations ≠ [] ∧
    preprocState.mutations = [
      ("perA_cube_12co", "allow_huge_operations"),
      ("perA_cube_13co", "allow_huge_operations"),
      ("orion_cube_12co", "allow_huge_operations"),
      ("orion_cube_13co", "allow_huge_operations"),
      ("orion_cube_c18o", "allow_huge_operations")] := by decide

/-- Claim C6 (amended): apart from setting the `allow_huge_operations`
flag on five loaded cubes in the preprocessing notebook, no statement of
either notebook mutates a loaded data object in place; every
transformation is an assignment binding a new value to a new or rebound
name. -/
theorem claim_c6 :
    analysisState.mutations = [] ∧
    preprocState.mutations = [
      ("perA_cube_12co", "allow_huge_operations"),
      ("perA_cube_13co", "allow_huge_operations"),
      ("orion_cube_12co", "allow_huge_operations"),
      ("orion_cube_13co", "allow_huge_operations"),
      ("orion_cube_c18o", "allow_huge_operations")] ∧
    (preprocState.mutations.all fun m => m.2 == "allow_huge_operations") = true := by decide

/-- Claim C7, as stated, is false: the analysis notebook wraps the
turbustat import in a try/except ImportError, and the preprocessing
notebook asserts twice that a moment-0 map's shape matches its cube's
spatial shape. -/
theorem claim_c7_counterexample :
    errorHandlingStmts analysisStmts ≠ [] ∧
    Stmt.tryImport "turbustat" ∈ errorHandlingStmts analysisStmts ∧
    Stmt.assertShapeEq "ophA_12co_mom0" "cube_12co" ∈ errorHandlingStmts preprocStmts := by decide

/-- Claim C7 (amended): the repository's own error handling is exactly
one try/except around the turbustat import and two shape assertions in
the Ophiuchus preprocessing; no other original statement catches an
exception or checks a precondition. -/
theorem claim_c7 :
    errorHandlingStmts analysisStmts = [.tryImport "turbustat"] ∧
    errorHandlingStmts preprocStmts =
      [.assertShapeEq "ophA_12co_mom0" "cube_12co",
       .assertShapeEq "ophA_13co_mom0" "cube_13co"] := by decide

/-- Claim C9: of the fifteen FITS writes performed by the preprocessing
stage, only the very first (the sliced Ophiuchus 12CO moment-0 map)
omits `overwrite=True`; consequently, on a re-run over the existing
outputs exactly that write raises because its target exists, while every
other write overwrites. -/
theorem claim_c9 :
    (preprocState.writes.map fun w => (w.path, w.overwrite)) = [
      ("Ophiuchus/OphA_12coFCRAO_F_map_sliced.fits", false),
      ("Ophiuchus/OphA_12coFCRAO_F_map_sliced_withbeam.fits", true),
      ("Ophiuchus/OphA_12coFCRAO_F_vxy_sliced_withbeam.fits", true),
      ("Ophiuchus/OphA_13coFCRAO_F_map_sliced_withbeam.fits", true),
      ("Ophiuchus/OphA_13coFCRAO_F_vxy_sliced_withbeam.fits", true),
      ("Perseus/PerA_12coFCRAO_F_map_sliced_withbeam.fits", true),
      ("Perseus/PerA_12coFCRAO_F_vxy_sliced_withbeam.fits", true),
      ("Perseus/PerA_13coFCRAO_F_map_sliced_withbeam.fits", true),
      ("Perseus/PerA_13coFCRAO_F_vxy_sliced_withbeam.fits", true),
      ("Orion/CARMA_NRO_Orion_12co_smoothed46.fits", true),
      ("Orion/mom0_12co_pix_2_Tmb_smoothed46.fits", true),
      ("Orion/CARMA_NRO_Orion_13co_smoothed46.fits", true),
      ("Orion/mom0_13co_pix_2_Tmb_smoothed46.fits", true),
      ("Orion/CARMA_NRO_Orion_c18o_smoothed46.fits", true),
      ("Orion/mom0_c18o_pix_2_Tmb_smoothed46.fits", true)] ∧
    rerunFailingWrites.map WriteRec.path =
      ["Ophiuchus/OphA_12coFCRAO_F_map_sliced.fits"] := by decide

/-- Claim C10: the two Orion sub-regions are the windows
`[3000:3500, 1300:1800]` and `[3750:4250, 1800:2300]`; both are 500 by
500 pixels, they are disjoint in the pixel grid, and exactly the same
window bounds are applied to the moment-0 map and to the spatial axes of
the 12CO cube for each region. -/
theorem claim_c10 :
    windowsBoundTo analysisStmts "orion_mom0_12co_region1" =
      [⟨3000, 3500, 1300, 1800⟩, ⟨3000, 3500, 1300, 1800⟩] ∧
    windowsBoundTo analysisStmts "orion_12co_cube_region1" =
      [⟨3000, 3500, 1300, 1800⟩] ∧
    windowsBoundTo analysisStmts "orion_mom0_12co_region2" =
      [⟨3750, 4250, 1800, 2300⟩] ∧
    windowsBoundTo analysisStmts "orion_12co_cube_region2" =
      [⟨3750, 4250, 1800, 2300⟩] ∧
    windowShape ⟨3000, 3500, 1300, 1800⟩ = (500, 500) ∧
    windowShape ⟨3750, 4250, 1800, 2300⟩ = (500, 500) ∧
    windowsDisjoint ⟨3000, 3500, 1300, 1800⟩ ⟨3750, 4250, 1800, 2300⟩ = true := by decide

/-- Claim C3, as stated, is false: taking the first element of the
`find_objects` list selects the bounding box of the component containing
the first finite pixel in raster order, which need not be the largest
component.  On a mask whose top-left pixel is an isolated finite pixel
ahead of a larger 2 by 2 block, the code's slice is the 1-pixel box, not
the bounding box of the largest region. -/
theorem claim_c3_counterexample :
    this_slice_of [[true, false, false], [false, true, true], [false, true, true]] =
      some ⟨0, 1, 0, 1⟩ ∧
    largest_component_slice [[true, false, false], [false, true, true], [false, true, true]] =
      some ⟨1, 3, 1, 3⟩ ∧
    this_slice_of [[true, false, false], [false, true, true], [false, true, true]] ≠
      largest_component_slice [[true, false, false], [false, true, true], [false, true, true]] := by
  decide

/-- Claim C3 (amended): the trimming step labels the connected
components of the finite-valued pixels and slices out the bounding box
of the first labeled region — the component containing the first finite
pixel in raster order, which the notebook assumes to be the largest —
and it is exactly that labeling-derived slice that is applied to the
moment-0 map in the value written to disk. -/
theorem claim_c3 :
    writtenValue preprocState "Ophiuchus/OphA_12coFCRAO_F_map_sliced.fits" =
      some (.op2App .sliceWith (.loaded "orig/Ophiuchus/OphA_12coFCRAO_F_map.fits")
        (.opApp .indexFirst (.opApp .findObjectsLabel (.opApp .isfinite
          (.loaded "orig/Ophiuchus/OphA_12coFCRAO_F_map.fits"))))) ∧
    ∀ (g : Grid) (c : Cell), (trueCells g).head? = some c →
      this_slice_of g = some (bbox (component (trueCells g) c)) := by
  refine ⟨by decide, ?_⟩
  intro g c hc
  cases hmask : trueCells g with
  | nil => rw [hmask] at hc; exact Option.noConfusion hc
  | cons a rest =>
    rw [hmask] at hc
    injection hc with hc
    rw [← hc]
    exact this_slice_eq hmask

/-- Witness for the amended claim C3 at a concrete mask. -/
theorem claim_c3_witness :
    (trueCells [[false, true]]).head? = some (0, 1) ∧
    this_slice_of [[false, true]] =
      some (bbox (component (trueCells [[false, true]]) (0, 1))) :=
  ⟨by decide, claim_c3.2 [[false, true]] (0, 1) (by decide)⟩

/-- Claim C8: slicing a cube with `(slice(None),) + this_slice` leaves
the spectral axis untouched (the sliced cube has exactly the cube's
number of velocity channels), and under the asserted shape equality
(moment-0 map shape equals the cube's spatial shape) the map-derived
bounding box is in bounds on both spatial axes, so the slice lengths are
exactly the bounding-box extents with no clamping. -/
theorem claim_c8 (g : Grid) (sh : CubeShape) (s : Slice2)
    (hlen : g.length = sh.ny)
    (hrect : (g.all fun row => row.length == sh.nx) = true)
    (hs : this_slice_of g = some s) :
    (sliceCubeShape sh s).nv = sh.nv ∧
    s.r0 ≤ s.r1 ∧ s.r1 ≤ sh.ny ∧ s.c0 ≤ s.c1 ∧ s.c1 ≤ sh.nx ∧
    sliceCubeShape sh s = ⟨sh.nv, s.r1 - s.r0, s.c1 - s.c0⟩ := by
  have hrect2 : ∀ row ∈ g, row.length = sh.nx := by
    intro row hrow
    exact eq_of_beq (List.all_eq_true.mp hrect row hrow)
  cases hmask : trueCells g with
  | nil =>
    rw [this_slice_of_empty hmask] at hs
    exact Option.noConfusion hs
  | cons a rest =>
    have heq := this_slice_eq hmask
    rw [hs] at heq
    injection heq with heq
    have hbounds : ∀ p ∈ component (a :: rest) a, p.1 < sh.ny ∧ p.2 < sh.nx := by
      intro p hp
      have hpm : p ∈ trueCells g := by
        rw [hmask]
        exact component_sub (List.mem_cons_self a rest) hp
      have hb := mem_trueCells hpm
      refine ⟨?_, ?_⟩
      · rw [← hlen]; exact hb.1
      · have hrl := hrect2 _ (getD_mem g p.1 [] hb.1)
        rw [← hrl]; exact hb.2
    have hne : component (a :: rest) a ≠ [] :=
      List.ne_nil_of_mem (self_mem_component (a :: rest) a)
    obtain ⟨h1, h2, h3, h4⟩ :=
      @bbox_bounds sh.ny sh.nx (component (a :: rest) a) hne hbounds
    rw [← heq] at h1 h2 h3 h4
    refine ⟨rfl, h1, h2, h3, h4, ?_⟩
    simp only [sliceCubeShape, sliceLen]
    rw [Nat.min_eq_left h2, Nat.min_eq_left (Nat.le_trans h1 h2),
        Nat.min_eq_left h4, Nat.min_eq_left (Nat.le_trans h3 h4)]

/-- Witness for claim C8 at a concrete mask and cube shape. -/
theorem claim_c8_witness :
    this_slice_of [[true]] = some ⟨0, 1, 0, 1⟩ ∧
    ((sliceCubeShape ⟨7, 1, 1⟩ ⟨0, 1, 0, 1⟩).nv = 7 ∧
     (0 : Nat) ≤ 1 ∧ 1 ≤ 1 ∧ (0 : Nat) ≤ 1 ∧ 1 ≤ 1 ∧
     sliceCubeShape ⟨7, 1, 1⟩ ⟨0, 1, 0, 1⟩ = ⟨7, 1, 1⟩) :=
  ⟨by decide, claim_c8 [[true]] ⟨7, 1, 1⟩ ⟨0, 1, 0, 1⟩ rfl (by decide) (by decide)⟩

end LocalClouds
